import Mathlib

/-!
Hello Triangle Vulkan: device selection and handle lifetime.

A shallow embedding of `src/Hello Triangle Vulkan/main.cpp`:

* the device ranker (`rateDeviceSuitability`, `findQueueFamilies`,
  `pickPhysicalDevice`) and `createLogicalDevice`;
* the handle wrapper `VDeleter` (`cleanup`, `replace`, `operator =`, destructor);
* the implicit destructor of `HelloTriangleApplication`.

Calls into the graphics API are modelled by the data they return (a physical
device is the record of what the queries on it answer) and by the events they
cause (a release action appends to a trace).
-/

/-! ## Machine integers -/

/-- Conversion of an integer value to the 32-bit two's complement `int` that
holds it: the value modulo `2^32`, taken in `[-2^31, 2^31)`. -/
def toInt32 (z : Int) : Int :=
  (z + 2147483648) % 4294967296 - 2147483648

/-! ## Data returned by the graphics API -/

/-- The enumeration `VkPhysicalDeviceType`. -/
inductive VkPhysicalDeviceType where
  | OTHER
  | INTEGRATED_GPU
  | DISCRETE_GPU
  | VIRTUAL_GPU
  | CPU
  deriving DecidableEq, Repr

/-- The bit `VK_QUEUE_GRAPHICS_BIT` of `VkQueueFlags`. -/
def VK_QUEUE_GRAPHICS_BIT : Nat := 1

/-- The fields of `VkQueueFamilyProperties` that the program reads. -/
structure VkQueueFamilyProperties where
  queueFlags : Nat
  queueCount : Nat
  deriving DecidableEq, Repr

/-- A physical device: the handle `VkPhysicalDevice` together with what
`vkGetPhysicalDeviceProperties`, `vkGetPhysicalDeviceFeatures` and
`vkGetPhysicalDeviceQueueFamilyProperties` answer for it.
`maxImageDimension2D` is a `uint32_t`. -/
structure VkPhysicalDevice where
  handle : Nat
  deviceType : VkPhysicalDeviceType
  maxImageDimension2D : Nat
  geometryShader : Bool
  queueFamilies : List VkQueueFamilyProperties
  deriving DecidableEq, Repr

/-! ## Queue families -/

/-- The helper struct `QueueFamilyIndicies`; both members start at `-1`. -/
structure QueueFamilyIndicies where
  graphicsFamily : Int := -1
  presentFamily : Int := -1
  deriving DecidableEq, Repr

namespace QueueFamilyIndicies

/-- The member `isComplete`: `graphicsFamily >= 0 && presentFamily >= 0`. -/
def isComplete (indicies : QueueFamilyIndicies) : Bool :=
  decide (indicies.graphicsFamily ≥ 0) && decide (indicies.presentFamily ≥ 0)

end QueueFamilyIndicies

namespace HelloTriangleApplication

/-- The test of the loop body of `findQueueFamilies`:
`queueFamily.queueCount > 0 && queueFamily.queueFlags & VK_QUEUE_GRAPHICS_BIT`. -/
def offersGraphics (queueFamily : VkQueueFamilyProperties) : Bool :=
  decide (queueFamily.queueCount > 0) &&
    decide (queueFamily.queueFlags &&& VK_QUEUE_GRAPHICS_BIT ≠ 0)

/-- The range-for loop of `findQueueFamilies` over the remaining families, with
the counter `i` and the indices found so far. The counter is an `int`; it
counts positions of a vector in memory and stays far below `2^31`. -/
def findQueueFamiliesLoop :
    List VkQueueFamilyProperties → Int → QueueFamilyIndicies → QueueFamilyIndicies
  | [], _, indicies => indicies
  | queueFamily :: rest, i, indicies =>
    let indicies :=
      if offersGraphics queueFamily then
        { indicies with graphicsFamily := i, presentFamily := i }
      else indicies
    if indicies.isComplete then indicies
    else findQueueFamiliesLoop rest (i + 1) indicies

/-- The member `findQueueFamilies`. -/
def findQueueFamilies (device : VkPhysicalDevice) : QueueFamilyIndicies :=
  findQueueFamiliesLoop device.queueFamilies 0 {}

/-! ## Scoring -/

/-- The member `rateDeviceSuitability`. `score` is an `int`; adding the
`uint32_t` limit is done modulo `2^32` and stored back into the `int`. -/
def rateDeviceSuitability (device : VkPhysicalDevice) : Int :=
  let score : Int := 0
  let score :=
    if device.deviceType = VkPhysicalDeviceType.DISCRETE_GPU then score + 1000
    else score
  let score := toInt32 (score + (device.maxImageDimension2D : Int))
  if !device.geometryShader then 0
  else score

/-! ## Selection -/

/-- The assignment `candidates[score] = device` on a `std::map<int, VkPhysicalDevice>`,
kept as the list of its entries in increasing key order: a new key is inserted
at its place, an existing key has its value overwritten. -/
def mapAssign :
    List (Int × VkPhysicalDevice) → Int → VkPhysicalDevice → List (Int × VkPhysicalDevice)
  | [], score, device => [(score, device)]
  | (k, v) :: rest, score, device =>
    if score < k then (score, device) :: (k, v) :: rest
    else if score = k then (score, device) :: rest
    else (k, v) :: mapAssign rest score device

/-- The loop of `pickPhysicalDevice` that fills `candidates`. -/
def fillCandidates (devices : List VkPhysicalDevice) : List (Int × VkPhysicalDevice) :=
  devices.foldl (fun candidates device =>
    mapAssign candidates (rateDeviceSuitability device) device) []

/-- The member `pickPhysicalDevice`, as a function of the enumerated devices.
`Except.ok d` is the value stored in `physicalDevice`; `Except.error` is the
message of the `std::runtime_error` thrown. `candidates.begin()` is the first
entry in key order; past the test of `deviceCount` the map has one
(`fillCandidates_ne_nil`), so the first branch of the `match` is never taken. -/
def pickPhysicalDevice (devices : List VkPhysicalDevice) : Except String VkPhysicalDevice :=
  if devices.length = 0 then
    Except.error "No GPU with Vulkan"
  else
    match fillCandidates devices with
    | [] => Except.error "No suitable GPU at all"
    | (first, second) :: _ =>
      if first > 0 && (findQueueFamilies second).isComplete then
        Except.ok second
      else
        Except.error "No suitable GPU at all"

end HelloTriangleApplication

/-! ## The handle wrapper -/

/-- The constant `VK_NULL_HANDLE`. -/
def VK_NULL_HANDLE : Nat := 0

/-- An object of class `VDeleter<T>` living in a program store `σ`: where its
member `object` is read and written, and its member `deleter`, the
`std::function<void(T)>` bound by the constructor, which acts on the store. -/
structure VDeleter (σ : Type) where
  object : σ → Nat
  setObject : Nat → σ → σ
  deleter : Nat → σ → σ

namespace VDeleter

variable {σ : Type}

/-- The constructor `VDeleter(deletef)`:
`deleter = [=](T obj) { deletef(obj, nullptr); }`. -/
def ofDeletef (object : σ → Nat) (setObject : Nat → σ → σ)
    (deletef : Nat → σ → σ) : VDeleter σ :=
  { object := object, setObject := setObject, deleter := fun obj => deletef obj }

/-- The constructor `VDeleter(const VDeleter<VkInstance> & instance, deletef)`:
`deleter = [&instance, deletef](T obj) { deletef(instance, obj, nullptr); }`.
The parent is captured by reference, so its `object` is read from the store
when the deleter runs. -/
def ofInstance (object : σ → Nat) (setObject : Nat → σ → σ)
    (parent : VDeleter σ) (deletef : Nat → Nat → σ → σ) : VDeleter σ :=
  { object := object, setObject := setObject,
    deleter := fun obj s => deletef (parent.object s) obj s }

/-- The private member `cleanup`. -/
def cleanup (d : VDeleter σ) (s : σ) : σ :=
  let s := if d.object s ≠ VK_NULL_HANDLE then d.deleter (d.object s) s else s
  d.setObject VK_NULL_HANDLE s

/-- The destructor `~VDeleter`. -/
def destructor (d : VDeleter σ) (s : σ) : σ :=
  d.cleanup s

/-- The member `replace`; the pointer it returns is the slot `object`, which
the caller, an API call, then writes. -/
def replace (d : VDeleter σ) (s : σ) : σ :=
  d.cleanup s

/-- The member `operator =`. -/
def assign (d : VDeleter σ) (rhs : Nat) (s : σ) : σ :=
  if rhs = d.object s then s
  else d.setObject rhs (d.cleanup s)

/-- A `VDeleter` on its own: the store is its member `object` paired with the
world `W` that its release action `deletef` acts on. -/
def standalone {W : Type} (deletef : Nat → W → W) : VDeleter (Nat × W) :=
  ofDeletef Prod.fst (fun v s => (v, s.2)) (fun obj s => (s.1, deletef obj s.2))

/-- The store of a freshly constructed `standalone` handle:
`T object{ VK_NULL_HANDLE }`. -/
def fresh {W : Type} (w : W) : Nat × W :=
  (VK_NULL_HANDLE, w)

/-- The release action that only records its argument in the list of calls
made so far. -/
def record (obj : Nat) (calls : List Nat) : List Nat :=
  calls ++ [obj]

end VDeleter

/-! ## The application object -/

/-- The API calls whose order and arguments are observed. -/
inductive Event where
  | vkDestroyInstance (instance_ : Nat)
  | DestroyDebugReportCallbackEXT (instance_ callback : Nat)
  | vkDestroySurfaceKHR (instance_ surface : Nat)
  | vkDestroyDevice (device : Nat)
  | vkCreateDevice (physicalDevice : Nat) (queueFamilyIndex queueCount : Nat)
  | vkGetDeviceQueue (device : Nat) (queueFamilyIndex queueIndex : Nat)
  deriving DecidableEq, Repr

/-- The store of the program: the `object` member of each of the four
`VDeleter` members of `HelloTriangleApplication`, and the API calls made so
far. -/
structure AppState where
  instanceObject : Nat := VK_NULL_HANDLE
  callbackObject : Nat := VK_NULL_HANDLE
  surfaceObject : Nat := VK_NULL_HANDLE
  deviceObject : Nat := VK_NULL_HANDLE
  trace : List Event := []
  deriving DecidableEq, Repr

namespace AppState

/-- An API call happens. -/
def emit (e : Event) (s : AppState) : AppState :=
  { s with trace := s.trace ++ [e] }

end AppState

namespace HelloTriangleApplication

/-- The member `VDeleter<VkInstance> instance{ vkDestroyInstance }`. -/
def instance_ : VDeleter AppState :=
  VDeleter.ofDeletef (fun s => s.instanceObject) (fun v s => { s with instanceObject := v })
    (fun obj s => s.emit (Event.vkDestroyInstance obj))

/-- The member
`VDeleter<VkDebugReportCallbackEXT> callback{ instance, DestroyDebugReportCallbackEXT }`. -/
def callback : VDeleter AppState :=
  VDeleter.ofInstance (fun s => s.callbackObject) (fun v s => { s with callbackObject := v })
    instance_ (fun inst obj s => s.emit (Event.DestroyDebugReportCallbackEXT inst obj))

/-- The member `VDeleter<VkSurfaceKHR> surface{ instance, vkDestroySurfaceKHR }`. -/
def surface : VDeleter AppState :=
  VDeleter.ofInstance (fun s => s.surfaceObject) (fun v s => { s with surfaceObject := v })
    instance_ (fun inst obj s => s.emit (Event.vkDestroySurfaceKHR inst obj))

/-- The member `VDeleter<VkDevice> device{ vkDestroyDevice }`. -/
def device : VDeleter AppState :=
  VDeleter.ofDeletef (fun s => s.deviceObject) (fun v s => { s with deviceObject := v })
    (fun obj s => s.emit (Event.vkDestroyDevice obj))

/-- The implicit destructor of `HelloTriangleApplication`: the members are
destroyed in the reverse of their declaration order `instance`, `callback`,
`surface`, `device`. It runs when `app` goes out of scope in `main`, after
`run` returned and after the `catch` of an exception thrown by `run` alike. -/
def destructor (s : AppState) : AppState :=
  let s := device.destructor s
  let s := surface.destructor s
  let s := callback.destructor s
  instance_.destructor s

/-- The member `createLogicalDevice`, given the member `physicalDevice` and
what `vkCreateDevice` does: the handle it writes through the pointer and
whether it returns `VK_SUCCESS`. The `int` index `graphicsFamily` is passed
as a `uint32_t`. The result is the store together with the message of the
exception thrown, if any. -/
def createLogicalDevice (physicalDevice : VkPhysicalDevice) (created : Nat) (success : Bool)
    (s : AppState) : AppState × Option String :=
  let indicies := findQueueFamilies physicalDevice
  let queueFamilyIndex := (indicies.graphicsFamily % 4294967296).toNat
  let queueCount := 1
  let s := device.replace s
  let s := s.emit (Event.vkCreateDevice physicalDevice.handle queueFamilyIndex queueCount)
  let s := { s with deviceObject := created }
  if !success then
    (s, some "failed to create logical device")
  else
    (s.emit (Event.vkGetDeviceQueue (device.object s)
      ((indicies.graphicsFamily % 4294967296).toNat) 1), none)

end HelloTriangleApplication

open HelloTriangleApplication

deriving instance DecidableEq for Except

/-! ## Scoring: theorems -/

/-- Claim C4: a device whose features report no geometry-shader support is
rated exactly 0, whatever its handle, its type, its `maxImageDimension2D` and
its queue families. -/
theorem rateDeviceSuitability_without_geometryShader (handle : Nat)
    (deviceType : VkPhysicalDeviceType) (maxImageDimension2D : Nat)
    (queueFamilies : List VkQueueFamilyProperties) :
    rateDeviceSuitability
      { handle := handle, deviceType := deviceType,
        maxImageDimension2D := maxImageDimension2D, geometryShader := false,
        queueFamilies := queueFamilies } = 0 := by
  simp [rateDeviceSuitability]

/-- Claim C5, as stated, fails: two devices without geometry-shader support
that differ only in type are both rated 0, and two devices with it whose
`maxImageDimension2D` is `2^31 - 1` differ by `1000 - 2^32`. -/
theorem rateDeviceSuitability_discrete_bonus_counterexample :
    rateDeviceSuitability
        { handle := 1, deviceType := VkPhysicalDeviceType.DISCRETE_GPU,
          maxImageDimension2D := 4096, geometryShader := false, queueFamilies := [] }
      ≠ rateDeviceSuitability
        { handle := 1, deviceType := VkPhysicalDeviceType.INTEGRATED_GPU,
          maxImageDimension2D := 4096, geometryShader := false, queueFamilies := [] } + 1000
    ∧ rateDeviceSuitability
        { handle := 1, deviceType := VkPhysicalDeviceType.DISCRETE_GPU,
          maxImageDimension2D := 2147483647, geometryShader := true, queueFamilies := [] }
      ≠ rateDeviceSuitability
        { handle := 1, deviceType := VkPhysicalDeviceType.INTEGRATED_GPU,
          maxImageDimension2D := 2147483647, geometryShader := true, queueFamilies := [] } + 1000 := by
  constructor <;> decide

/-- Claim C5, amended: for two devices that differ only in type, one discrete
and one integrated, with a `uint32_t` limit `maxImageDimension2D`, the discrete
one is rated exactly 1000 more than the integrated one if and only if they
support geometry shaders and the limit is not one of the 1000 values
`2147482648 .. 2147483647` from which adding 1000 leaves the range of `int`. -/
theorem rateDeviceSuitability_discrete_bonus (d : VkPhysicalDevice)
    (hlimit : d.maxImageDimension2D < 4294967296) :
    rateDeviceSuitability { d with deviceType := VkPhysicalDeviceType.DISCRETE_GPU }
        = rateDeviceSuitability { d with deviceType := VkPhysicalDeviceType.INTEGRATED_GPU } + 1000
      ↔ d.geometryShader = true ∧
          (d.maxImageDimension2D < 2147482648 ∨ 2147483647 < d.maxImageDimension2D) := by
  cases hg : d.geometryShader
  · simp [rateDeviceSuitability, hg]
  · simp [rateDeviceSuitability, toInt32, hg]
    omega

/-- Instance of `rateDeviceSuitability_discrete_bonus`: discrete 8192 is rated
9192, integrated 8192 is rated 8192. -/
theorem rateDeviceSuitability_discrete_bonus_witness :
    (8192 : Nat) < 4294967296
    ∧ rateDeviceSuitability
        { ({ handle := 1, deviceType := VkPhysicalDeviceType.OTHER, maxImageDimension2D := 8192,
             geometryShader := true, queueFamilies := [] } : VkPhysicalDevice) with
          deviceType := VkPhysicalDeviceType.DISCRETE_GPU }
      = rateDeviceSuitability
        { ({ handle := 1, deviceType := VkPhysicalDeviceType.OTHER, maxImageDimension2D := 8192,
             geometryShader := true, queueFamilies := [] } : VkPhysicalDevice) with
          deviceType := VkPhysicalDeviceType.INTEGRATED_GPU } + 1000 :=
  ⟨by decide, (rateDeviceSuitability_discrete_bonus
    { handle := 1, deviceType := VkPhysicalDeviceType.OTHER, maxImageDimension2D := 8192,
      geometryShader := true, queueFamilies := [] } (by decide)).mpr (by decide)⟩

/-! ## Queue families: theorems -/

/-- A family list splits at its first family that passes the loop test, or has
none. -/
theorem exists_first_offersGraphics (qs : List VkQueueFamilyProperties) :
    (∀ q ∈ qs, offersGraphics q = false) ∨
    ∃ pre q post, qs = pre ++ q :: post ∧ (∀ p ∈ pre, offersGraphics p = false) ∧
      offersGraphics q = true := by
  induction qs with
  | nil => left; simp
  | cons q qs ih =>
    cases hq : offersGraphics q with
    | true => exact Or.inr ⟨[], q, qs, rfl, by simp, hq⟩
    | false =>
      rcases ih with h | ⟨pre, q1, post, hsplit, hpre, hq1⟩
      · left
        intro x hx
        rcases List.mem_cons.mp hx with rfl | hx
        · exact hq
        · exact h x hx
      · right
        refine ⟨q :: pre, q1, post, by simp [hsplit], ?_, hq1⟩
        intro x hx
        rcases List.mem_cons.mp hx with rfl | hx
        · exact hq
        · exact hpre x hx

/-- The loop leaves the indices alone while no family passes the test. -/
theorem findQueueFamiliesLoop_none (qs : List VkQueueFamilyProperties) (i : Int)
    (indicies : QueueFamilyIndicies) (hinc : indicies.isComplete = false)
    (hnone : ∀ q ∈ qs, offersGraphics q = false) :
    findQueueFamiliesLoop qs i indicies = indicies := by
  induction qs generalizing i with
  | nil => rfl
  | cons q qs ih =>
    have hq : offersGraphics q = false := hnone q (List.mem_cons_self _ _)
    simp only [findQueueFamiliesLoop, hq, hinc, Bool.false_eq_true, if_false]
    exact ih (i + 1) (fun x hx => hnone x (List.mem_cons_of_mem _ hx))

/-- The loop stops at the first family that passes the test and records its
position in both indices. -/
theorem findQueueFamiliesLoop_first (pre : List VkQueueFamilyProperties)
    (q : VkQueueFamilyProperties) (post : List VkQueueFamilyProperties) (i : Int)
    (hi : 0 ≤ i) (indicies : QueueFamilyIndicies) (hinc : indicies.isComplete = false)
    (hpre : ∀ p ∈ pre, offersGraphics p = false) (hq : offersGraphics q = true) :
    findQueueFamiliesLoop (pre ++ q :: post) i indicies
      = { graphicsFamily := i + pre.length, presentFamily := i + pre.length } := by
  induction pre generalizing i with
  | nil =>
    have hc : QueueFamilyIndicies.isComplete { graphicsFamily := i, presentFamily := i } = true := by
      simp [QueueFamilyIndicies.isComplete, hi]
    simp [findQueueFamiliesLoop, hq, hc]
  | cons p pre ih =>
    have hp : offersGraphics p = false := hpre p (List.mem_cons_self _ _)
    simp only [List.cons_append, findQueueFamiliesLoop, hp, hinc, Bool.false_eq_true, if_false]
    have hrec := ih (i + 1) (by omega) (fun x hx => hpre x (List.mem_cons_of_mem _ hx))
    have hlen : i + 1 + (pre.length : Int) = i + ((p :: pre).length : Int) := by
      simp only [List.length_cons, Nat.cast_add, Nat.cast_one]
      omega
    rw [hlen] at hrec
    exact hrec

/-- A device with a family that offers graphics has complete indices. -/
theorem findQueueFamilies_isComplete_of_offersGraphics (device : VkPhysicalDevice)
    (h : ∃ q ∈ device.queueFamilies, offersGraphics q = true) :
    (findQueueFamilies device).isComplete = true := by
  rcases exists_first_offersGraphics device.queueFamilies with hno | ⟨pre, q, post, hs, hp, hq⟩
  · obtain ⟨q, hmem, hq⟩ := h
    rw [hno q hmem] at hq
    cases hq
  · unfold findQueueFamilies
    rw [hs, findQueueFamiliesLoop_first pre q post 0 (le_refl 0) {} (by decide) hp hq]
    simp [QueueFamilyIndicies.isComplete]

/-- Claim C9: `findQueueFamilies` returns, in `graphicsFamily` and in
`presentFamily`, the position of the first family of the device that offers
graphics (at least one queue and the graphics bit set); both are `-1`, and
`isComplete` is false, exactly when no family of the device offers graphics. -/
theorem findQueueFamilies_first_graphics (device : VkPhysicalDevice) :
    (∀ pre q post, device.queueFamilies = pre ++ q :: post →
        (∀ p ∈ pre, offersGraphics p = false) → offersGraphics q = true →
        findQueueFamilies device
          = { graphicsFamily := (pre.length : Int), presentFamily := (pre.length : Int) })
    ∧ ((∀ q ∈ device.queueFamilies, offersGraphics q = false) ↔
        ((findQueueFamilies device).graphicsFamily = -1 ∧
          (findQueueFamilies device).presentFamily = -1))
    ∧ ((∀ q ∈ device.queueFamilies, offersGraphics q = false) ↔
        (findQueueFamilies device).isComplete = false) := by
  have hinit : QueueFamilyIndicies.isComplete {} = false := by decide
  have hfound : ∀ pre q post, device.queueFamilies = pre ++ q :: post →
      (∀ p ∈ pre, offersGraphics p = false) → offersGraphics q = true →
      findQueueFamilies device
        = { graphicsFamily := (pre.length : Int), presentFamily := (pre.length : Int) } := by
    intro pre q post hsplit hpre hq
    unfold findQueueFamilies
    rw [hsplit, findQueueFamiliesLoop_first pre q post 0 (le_refl 0) {} hinit hpre hq]
    simp
  have hnone : (∀ q ∈ device.queueFamilies, offersGraphics q = false) →
      findQueueFamilies device = {} := fun h =>
    findQueueFamiliesLoop_none device.queueFamilies 0 {} hinit h
  refine ⟨hfound, ⟨fun h => ?_, fun h => ?_⟩, ⟨fun h => ?_, fun h => ?_⟩⟩
  · rw [hnone h]; exact ⟨rfl, rfl⟩
  · rcases exists_first_offersGraphics device.queueFamilies with hno | ⟨pre, q, post, hs, hp, hq⟩
    · exact hno
    · rw [hfound pre q post hs hp hq] at h
      have := h.1
      simp only at this
      omega
  · rw [hnone h]; rfl
  · rcases exists_first_offersGraphics device.queueFamilies with hno | ⟨pre, q, post, hs, hp, hq⟩
    · exact hno
    · rw [hfound pre q post hs hp hq] at h
      simp [QueueFamilyIndicies.isComplete] at h

/-- Instance of `findQueueFamilies_first_graphics`: of three families, the
first lacks the graphics bit, the second has no queue, the third offers
graphics, and the indices found are both 2. -/
theorem findQueueFamilies_first_graphics_witness :
    findQueueFamilies
        { handle := 1, deviceType := VkPhysicalDeviceType.DISCRETE_GPU,
          maxImageDimension2D := 8192, geometryShader := true,
          queueFamilies := [⟨2, 4⟩, ⟨1, 0⟩, ⟨3, 2⟩, ⟨1, 1⟩] }
      = { graphicsFamily := 2, presentFamily := 2 } :=
  (findQueueFamilies_first_graphics
      { handle := 1, deviceType := VkPhysicalDeviceType.DISCRETE_GPU,
        maxImageDimension2D := 8192, geometryShader := true,
        queueFamilies := [⟨2, 4⟩, ⟨1, 0⟩, ⟨3, 2⟩, ⟨1, 1⟩] }).1
    [⟨2, 4⟩, ⟨1, 0⟩] ⟨3, 2⟩ [⟨1, 1⟩] rfl (by decide) (by decide)

/-! ## Selection: theorems -/

/-- An entry of the map after `candidates[score] = device` is the assigned one
or was there before. -/
theorem mem_mapAssign (m : List (Int × VkPhysicalDevice)) (score : Int)
    (device : VkPhysicalDevice) (x : Int × VkPhysicalDevice)
    (hx : x ∈ mapAssign m score device) : x = (score, device) ∨ x ∈ m := by
  induction m with
  | nil => simpa [mapAssign] using hx
  | cons e rest ih =>
    obtain ⟨k, v⟩ := e
    unfold mapAssign at hx
    split_ifs at hx with h1 h2
    · rcases List.mem_cons.mp hx with h | h
      · exact Or.inl h
      · exact Or.inr h
    · rcases List.mem_cons.mp hx with h | h
      · exact Or.inl h
      · exact Or.inr (List.mem_cons_of_mem _ h)
    · rcases List.mem_cons.mp hx with h | h
      · exact Or.inr (h ▸ List.mem_cons_self _ _)
      · rcases ih h with h | h
        · exact Or.inl h
        · exact Or.inr (List.mem_cons_of_mem _ h)

/-- Every key of the map is still a key after `candidates[score] = device`,
and `score` is one. -/
theorem key_mapAssign (m : List (Int × VkPhysicalDevice)) (score : Int)
    (device : VkPhysicalDevice) (k : Int)
    (hk : k = score ∨ ∃ v, (k, v) ∈ m) : ∃ v, (k, v) ∈ mapAssign m score device := by
  induction m with
  | nil =>
    rcases hk with rfl | ⟨v, hv⟩
    · exact ⟨device, by simp [mapAssign]⟩
    · simp at hv
  | cons e rest ih =>
    obtain ⟨k1, v1⟩ := e
    unfold mapAssign
    split_ifs with h1 h2
    · rcases hk with rfl | ⟨v, hv⟩
      · exact ⟨device, List.mem_cons_self _ _⟩
      · exact ⟨v, List.mem_cons_of_mem _ hv⟩
    · rcases hk with rfl | ⟨v, hv⟩
      · exact ⟨device, List.mem_cons_self _ _⟩
      · rcases List.mem_cons.mp hv with h | h
        · have hkk : k = score := by
            have := congrArg Prod.fst h
            simp only at this
            omega
          exact ⟨device, by rw [hkk]; exact List.mem_cons_self _ _⟩
        · exact ⟨v, List.mem_cons_of_mem _ h⟩
    · rcases hk with rfl | ⟨v, hv⟩
      · obtain ⟨w, hw⟩ := ih (Or.inl rfl)
        exact ⟨w, List.mem_cons_of_mem _ hw⟩
      · rcases List.mem_cons.mp hv with h | h
        · exact ⟨v, h ▸ List.mem_cons_self _ _⟩
        · obtain ⟨w, hw⟩ := ih (Or.inr ⟨v, h⟩)
          exact ⟨w, List.mem_cons_of_mem _ hw⟩

/-- The map stays in strictly increasing key order under
`candidates[score] = device`. -/
theorem pairwise_mapAssign (m : List (Int × VkPhysicalDevice)) (score : Int)
    (device : VkPhysicalDevice) (hm : m.Pairwise (fun a b => a.1 < b.1)) :
    (mapAssign m score device).Pairwise (fun a b => a.1 < b.1) := by
  induction m with
  | nil => simp [mapAssign]
  | cons e rest ih =>
    obtain ⟨k, v⟩ := e
    rw [List.pairwise_cons] at hm
    unfold mapAssign
    split_ifs with h1 h2
    · refine List.pairwise_cons.mpr ⟨?_, List.pairwise_cons.mpr hm⟩
      intro b hb
      rcases List.mem_cons.mp hb with rfl | hb
      · exact h1
      · exact lt_trans h1 (hm.1 b hb)
    · refine List.pairwise_cons.mpr ⟨?_, hm.2⟩
      intro b hb
      have := hm.1 b hb
      simp only at this ⊢
      omega
    · refine List.pairwise_cons.mpr ⟨?_, ih hm.2⟩
      intro b hb
      rcases mem_mapAssign rest score device b hb with rfl | hb
      · simp only
        omega
      · exact hm.1 b hb

/-- The invariant of the loop that fills `candidates`, carried from the devices
`ds` already seen over the devices `rest` still to come: the map is in
strictly increasing key order, each entry holds a seen device under its own
score, and the score of each seen device is a key. -/
theorem foldl_mapAssign_invariant (rest ds : List VkPhysicalDevice)
    (m : List (Int × VkPhysicalDevice))
    (hsorted : m.Pairwise (fun a b => a.1 < b.1))
    (hentries : ∀ x ∈ m, x.2 ∈ ds ∧ rateDeviceSuitability x.2 = x.1)
    (hkeys : ∀ d ∈ ds, ∃ v, (rateDeviceSuitability d, v) ∈ m) :
    (rest.foldl (fun candidates device =>
        mapAssign candidates (rateDeviceSuitability device) device) m).Pairwise
        (fun a b => a.1 < b.1)
    ∧ (∀ x ∈ rest.foldl (fun candidates device =>
          mapAssign candidates (rateDeviceSuitability device) device) m,
        x.2 ∈ ds ++ rest ∧ rateDeviceSuitability x.2 = x.1)
    ∧ (∀ d ∈ ds ++ rest, ∃ v, (rateDeviceSuitability d, v) ∈
        rest.foldl (fun candidates device =>
          mapAssign candidates (rateDeviceSuitability device) device) m) := by
  induction rest generalizing ds m with
  | nil =>
    simp only [List.foldl_nil, List.append_nil]
    exact ⟨hsorted, hentries, hkeys⟩
  | cons d rest ih =>
    have step := ih (ds ++ [d]) (mapAssign m (rateDeviceSuitability d) d)
      (pairwise_mapAssign m _ d hsorted)
      (by
        intro x hx
        rcases mem_mapAssign m _ d x hx with rfl | hx
        · exact ⟨by simp, rfl⟩
        · exact ⟨List.mem_append_left _ (hentries x hx).1, (hentries x hx).2⟩)
      (by
        intro d1 hd1
        rcases List.mem_append.mp hd1 with h | h
        · exact key_mapAssign m _ d _ (Or.inr (hkeys d1 h))
        · have hd : d1 = d := by simpa using h
          exact key_mapAssign m _ d _ (Or.inl (by rw [hd])))
    simpa [List.foldl_cons, List.append_assoc] using step

/-- What `candidates` holds after the loop of `pickPhysicalDevice`. -/
theorem fillCandidates_spec (devices : List VkPhysicalDevice) :
    (fillCandidates devices).Pairwise (fun a b => a.1 < b.1)
    ∧ (∀ x ∈ fillCandidates devices, x.2 ∈ devices ∧ rateDeviceSuitability x.2 = x.1)
    ∧ (∀ d ∈ devices, ∃ v, (rateDeviceSuitability d, v) ∈ fillCandidates devices) := by
  have h := foldl_mapAssign_invariant devices [] [] List.Pairwise.nil (by simp) (by simp)
  simpa [fillCandidates] using h

/-- With a device enumerated the map is not empty after the loop, so
`candidates.begin()` is an entry of the map. -/
theorem fillCandidates_ne_nil (devices : List VkPhysicalDevice) (h : devices.length ≠ 0) :
    fillCandidates devices ≠ [] := by
  cases devices with
  | nil => exact absurd rfl h
  | cons d rest =>
    obtain ⟨v, hv⟩ := (fillCandidates_spec (d :: rest)).2.2 d (List.mem_cons_self _ _)
    exact List.ne_nil_of_mem hv

/-- What a successful `pickPhysicalDevice` stores: an enumerated device whose
score is positive, whose queue families are complete, and whose score is the
first key of the map, hence not above the score of any enumerated device. -/
theorem pickPhysicalDevice_ok (devices : List VkPhysicalDevice) (d : VkPhysicalDevice)
    (h : pickPhysicalDevice devices = Except.ok d) :
    d ∈ devices ∧ 0 < rateDeviceSuitability d ∧ (findQueueFamilies d).isComplete = true
      ∧ ∀ d1 ∈ devices, rateDeviceSuitability d ≤ rateDeviceSuitability d1 := by
  obtain ⟨hsorted, hentries, hkeys⟩ := fillCandidates_spec devices
  unfold pickPhysicalDevice at h
  split_ifs at h with hlen
  split at h
  · cases h
  · rename_i first second tail hfill
    split_ifs at h with hcond
    rw [hfill] at hsorted hentries hkeys
    have hd : second = d := by injection h
    subst hd
    simp only [Bool.and_eq_true, decide_eq_true_eq] at hcond
    have hhead := hentries (first, second) (List.mem_cons_self _ _)
    simp only at hhead
    refine ⟨hhead.1, by rw [hhead.2]; exact hcond.1, hcond.2, ?_⟩
    intro d1 hd1
    obtain ⟨v, hv⟩ := hkeys d1 hd1
    rw [hhead.2]
    rcases List.mem_cons.mp hv with heq | hmem
    · have := congrArg Prod.fst heq
      simp only at this
      omega
    · have := (List.pairwise_cons.mp hsorted).1 _ hmem
      simp only at this
      omega

/-- Claim C1 fails on the code: of an integrated device rated 4096 and a
discrete device rated 9192, both with geometry shaders and a graphics queue
family, `pickPhysicalDevice` stores the integrated one, the entry at
`candidates.begin()`, although the other one is rated higher. -/
theorem pickPhysicalDevice_selects_lowest_score :
    pickPhysicalDevice
        [{ handle := 1, deviceType := VkPhysicalDeviceType.INTEGRATED_GPU,
           maxImageDimension2D := 4096, geometryShader := true, queueFamilies := [⟨1, 1⟩] },
         { handle := 2, deviceType := VkPhysicalDeviceType.DISCRETE_GPU,
           maxImageDimension2D := 8192, geometryShader := true, queueFamilies := [⟨1, 1⟩] }]
      = Except.ok
         { handle := 1, deviceType := VkPhysicalDeviceType.INTEGRATED_GPU,
           maxImageDimension2D := 4096, geometryShader := true, queueFamilies := [⟨1, 1⟩] }
    ∧ rateDeviceSuitability
         { handle := 1, deviceType := VkPhysicalDeviceType.INTEGRATED_GPU,
           maxImageDimension2D := 4096, geometryShader := true, queueFamilies := [⟨1, 1⟩] } = 4096
    ∧ rateDeviceSuitability
         { handle := 2, deviceType := VkPhysicalDeviceType.DISCRETE_GPU,
           maxImageDimension2D := 8192, geometryShader := true, queueFamilies := [⟨1, 1⟩] } = 9192 := by
  refine ⟨?_, ?_, ?_⟩ <;> decide

/-- Claim C2: with no device enumerated `pickPhysicalDevice` throws; and for
every list of enumerated devices, a device that `pickPhysicalDevice` stores
is one of them, is rated strictly above 0, and has complete queue family
indices, `graphicsFamily >= 0` and `presentFamily >= 0`. -/
theorem pickPhysicalDevice_selected_is_suitable :
    pickPhysicalDevice [] = Except.error "No GPU with Vulkan"
    ∧ ∀ (devices : List VkPhysicalDevice) (d : VkPhysicalDevice),
        pickPhysicalDevice devices = Except.ok d →
        d ∈ devices ∧ 0 < rateDeviceSuitability d
          ∧ (findQueueFamilies d).isComplete = true
          ∧ 0 ≤ (findQueueFamilies d).graphicsFamily
          ∧ 0 ≤ (findQueueFamilies d).presentFamily := by
  refine ⟨rfl, ?_⟩
  intro devices d h
  obtain ⟨hmem, hpos, hcomplete, _⟩ := pickPhysicalDevice_ok devices d h
  have hc := hcomplete
  simp only [QueueFamilyIndicies.isComplete, Bool.and_eq_true, decide_eq_true_eq] at hc
  exact ⟨hmem, hpos, hcomplete, hc.1, hc.2⟩

/-- Instance of `pickPhysicalDevice_selected_is_suitable`: a single discrete
device with geometry shaders and a graphics queue family is selected, and it is
rated above 0 with complete indices. -/
theorem pickPhysicalDevice_selected_is_suitable_witness :
    pickPhysicalDevice
        [{ handle := 1, deviceType := VkPhysicalDeviceType.DISCRETE_GPU,
           maxImageDimension2D := 8192, geometryShader := true, queueFamilies := [⟨1, 1⟩] }]
      = Except.ok
         { handle := 1, deviceType := VkPhysicalDeviceType.DISCRETE_GPU,
           maxImageDimension2D := 8192, geometryShader := true, queueFamilies := [⟨1, 1⟩] }
    ∧ 0 < rateDeviceSuitability
         { handle := 1, deviceType := VkPhysicalDeviceType.DISCRETE_GPU,
           maxImageDimension2D := 8192, geometryShader := true, queueFamilies := [⟨1, 1⟩] }
    ∧ (findQueueFamilies
         { handle := 1, deviceType := VkPhysicalDeviceType.DISCRETE_GPU,
           maxImageDimension2D := 8192, geometryShader := true,
           queueFamilies := [⟨1, 1⟩] }).isComplete = true :=
  have h := pickPhysicalDevice_selected_is_suitable.2
    [{ handle := 1, deviceType := VkPhysicalDeviceType.DISCRETE_GPU,
       maxImageDimension2D := 8192, geometryShader := true, queueFamilies := [⟨1, 1⟩] }]
    { handle := 1, deviceType := VkPhysicalDeviceType.DISCRETE_GPU,
      maxImageDimension2D := 8192, geometryShader := true, queueFamilies := [⟨1, 1⟩] }
    (by decide)
  ⟨by decide, h.2.1, h.2.2.1⟩

/-- Claim C3, as stated, fails: with the three devices enumerated in the order
(a), (b), (c), each with one graphics queue family, `pickPhysicalDevice`
throws and does not select (b). -/
theorem pickPhysicalDevice_three_devices_counterexample :
    pickPhysicalDevice
        [{ handle := 1, deviceType := VkPhysicalDeviceType.INTEGRATED_GPU,
           maxImageDimension2D := 4096, geometryShader := false, queueFamilies := [⟨1, 1⟩] },
         { handle := 2, deviceType := VkPhysicalDeviceType.DISCRETE_GPU,
           maxImageDimension2D := 8192, geometryShader := true, queueFamilies := [⟨1, 1⟩] },
         { handle := 3, deviceType := VkPhysicalDeviceType.INTEGRATED_GPU,
           maxImageDimension2D := 16384, geometryShader := true, queueFamilies := [⟨1, 1⟩] }]
      = Except.error "No suitable GPU at all"
    ∧ pickPhysicalDevice
        [{ handle := 1, deviceType := VkPhysicalDeviceType.INTEGRATED_GPU,
           maxImageDimension2D := 4096, geometryShader := false, queueFamilies := [⟨1, 1⟩] },
         { handle := 2, deviceType := VkPhysicalDeviceType.DISCRETE_GPU,
           maxImageDimension2D := 8192, geometryShader := true, queueFamilies := [⟨1, 1⟩] },
         { handle := 3, deviceType := VkPhysicalDeviceType.INTEGRATED_GPU,
           maxImageDimension2D := 16384, geometryShader := true, queueFamilies := [⟨1, 1⟩] }]
      ≠ Except.ok
         { handle := 2, deviceType := VkPhysicalDeviceType.DISCRETE_GPU,
           maxImageDimension2D := 8192, geometryShader := true, queueFamilies := [⟨1, 1⟩] } := by
  constructor <;> decide

/-- Claim C3, amended: for the three devices (a) integrated without geometry
shaders and limit 4096, (b) discrete with geometry shaders and limit 8192,
(c) integrated with geometry shaders and limit 16384, each with a queue family
that offers graphics, the ratings are 0, 9192 and 16384, so (b) is not the
highest rated, each of the three has complete queue family indices, and in
no enumeration order does `pickPhysicalDevice` select (b). -/
theorem pickPhysicalDevice_three_devices (ha hb hc : Nat)
    (qa qb qc : List VkQueueFamilyProperties)
    (hqa : ∃ q ∈ qa, offersGraphics q = true) (hqb : ∃ q ∈ qb, offersGraphics q = true)
    (hqc : ∃ q ∈ qc, offersGraphics q = true)
    (devices : List VkPhysicalDevice)
    (horder : devices.Perm
      [{ handle := ha, deviceType := VkPhysicalDeviceType.INTEGRATED_GPU,
         maxImageDimension2D := 4096, geometryShader := false, queueFamilies := qa },
       { handle := hb, deviceType := VkPhysicalDeviceType.DISCRETE_GPU,
         maxImageDimension2D := 8192, geometryShader := true, queueFamilies := qb },
       { handle := hc, deviceType := VkPhysicalDeviceType.INTEGRATED_GPU,
         maxImageDimension2D := 16384, geometryShader := true, queueFamilies := qc }]) :
    rateDeviceSuitability
        { handle := ha, deviceType := VkPhysicalDeviceType.INTEGRATED_GPU,
          maxImageDimension2D := 4096, geometryShader := false, queueFamilies := qa } = 0
    ∧ rateDeviceSuitability
        { handle := hb, deviceType := VkPhysicalDeviceType.DISCRETE_GPU,
          maxImageDimension2D := 8192, geometryShader := true, queueFamilies := qb } = 9192
    ∧ rateDeviceSuitability
        { handle := hc, deviceType := VkPhysicalDeviceType.INTEGRATED_GPU,
          maxImageDimension2D := 16384, geometryShader := true, queueFamilies := qc } = 16384
    ∧ (findQueueFamilies
        { handle := ha, deviceType := VkPhysicalDeviceType.INTEGRATED_GPU,
          maxImageDimension2D := 4096, geometryShader := false,
          queueFamilies := qa }).isComplete = true
    ∧ (findQueueFamilies
        { handle := hb, deviceType := VkPhysicalDeviceType.DISCRETE_GPU,
          maxImageDimension2D := 8192, geometryShader := true,
          queueFamilies := qb }).isComplete = true
    ∧ (findQueueFamilies
        { handle := hc, deviceType := VkPhysicalDeviceType.INTEGRATED_GPU,
          maxImageDimension2D := 16384, geometryShader := true,
          queueFamilies := qc }).isComplete = true
    ∧ pickPhysicalDevice devices
      ≠ Except.ok
        { handle := hb, deviceType := VkPhysicalDeviceType.DISCRETE_GPU,
          maxImageDimension2D := 8192, geometryShader := true, queueFamilies := qb } := by
  refine ⟨by simp [rateDeviceSuitability], by simp [rateDeviceSuitability, toInt32],
    by simp [rateDeviceSuitability, toInt32],
    findQueueFamilies_isComplete_of_offersGraphics _ hqa,
    findQueueFamilies_isComplete_of_offersGraphics _ hqb,
    findQueueFamilies_isComplete_of_offersGraphics _ hqc, ?_⟩
  intro hsel
  obtain ⟨_, _, _, hmin⟩ := pickPhysicalDevice_ok devices _ hsel
  have hle := hmin _ (horder.symm.subset (List.mem_cons_self _ _))
  simp [rateDeviceSuitability, toInt32] at hle

/-- Instance of `pickPhysicalDevice_three_devices`: enumeration order (c), (a),
(b), each device with the single queue family of one graphics queue. -/
theorem pickPhysicalDevice_three_devices_witness :
    pickPhysicalDevice
        [{ handle := 3, deviceType := VkPhysicalDeviceType.INTEGRATED_GPU,
           maxImageDimension2D := 16384, geometryShader := true, queueFamilies := [⟨1, 1⟩] },
         { handle := 1, deviceType := VkPhysicalDeviceType.INTEGRATED_GPU,
           maxImageDimension2D := 4096, geometryShader := false, queueFamilies := [⟨1, 1⟩] },
         { handle := 2, deviceType := VkPhysicalDeviceType.DISCRETE_GPU,
           maxImageDimension2D := 8192, geometryShader := true, queueFamilies := [⟨1, 1⟩] }]
      ≠ Except.ok
         { handle := 2, deviceType := VkPhysicalDeviceType.DISCRETE_GPU,
           maxImageDimension2D := 8192, geometryShader := true, queueFamilies := [⟨1, 1⟩] } :=
  (pickPhysicalDevice_three_devices 1 2 3 [⟨1, 1⟩] [⟨1, 1⟩] [⟨1, 1⟩]
    ⟨⟨1, 1⟩, by decide, by decide⟩ ⟨⟨1, 1⟩, by decide, by decide⟩
    ⟨⟨1, 1⟩, by decide, by decide⟩ _ (by decide)).2.2.2.2.2.2

/-! ## The handle wrapper: theorems -/

/-- Claim C6: for every release action `deletef` and every non-null value `v`,
on a freshly constructed handle the first `= v` stores `v` and releases
nothing, the second `= v` changes nothing, and the destructor then applies
`deletef` once, to `v`; with the recording release action the calls made are
exactly `[v]`, none of them before the destructor. -/
theorem VDeleter.assign_same_value_twice (v : Nat) (hv : v ≠ VK_NULL_HANDLE) :
    (∀ (W : Type) (deletef : Nat → W → W) (w : W),
        (VDeleter.standalone deletef).assign v (VDeleter.fresh w) = (v, w)
        ∧ (VDeleter.standalone deletef).assign v
            ((VDeleter.standalone deletef).assign v (VDeleter.fresh w)) = (v, w)
        ∧ (VDeleter.standalone deletef).destructor
            ((VDeleter.standalone deletef).assign v
              ((VDeleter.standalone deletef).assign v (VDeleter.fresh w)))
            = (VK_NULL_HANDLE, deletef v w))
    ∧ ((VDeleter.standalone VDeleter.record).assign v
          ((VDeleter.standalone VDeleter.record).assign v (VDeleter.fresh [])) = (v, [])
      ∧ (VDeleter.standalone VDeleter.record).destructor
          ((VDeleter.standalone VDeleter.record).assign v
            ((VDeleter.standalone VDeleter.record).assign v (VDeleter.fresh [])))
          = (VK_NULL_HANDLE, [v])) := by
  have hgen : ∀ (W : Type) (deletef : Nat → W → W) (w : W),
      (VDeleter.standalone deletef).assign v (VDeleter.fresh w) = (v, w)
      ∧ (VDeleter.standalone deletef).assign v
          ((VDeleter.standalone deletef).assign v (VDeleter.fresh w)) = (v, w)
      ∧ (VDeleter.standalone deletef).destructor
          ((VDeleter.standalone deletef).assign v
            ((VDeleter.standalone deletef).assign v (VDeleter.fresh w)))
          = (VK_NULL_HANDLE, deletef v w) := by
    intro W deletef w
    have h1 : (VDeleter.standalone deletef).assign v (VDeleter.fresh w) = (v, w) := by
      simp [VDeleter.assign, VDeleter.standalone, VDeleter.ofDeletef, VDeleter.fresh,
        VDeleter.cleanup, hv]
    have h2 : (VDeleter.standalone deletef).assign v (v, w) = (v, w) := by
      simp [VDeleter.assign, VDeleter.standalone, VDeleter.ofDeletef]
    have h3 : (VDeleter.standalone deletef).destructor (v, w)
        = (VK_NULL_HANDLE, deletef v w) := by
      simp [VDeleter.destructor, VDeleter.cleanup, VDeleter.standalone, VDeleter.ofDeletef, hv]
    rw [h1, h2]
    exact ⟨rfl, rfl, h3⟩
  refine ⟨hgen, ?_⟩
  have h := hgen (List Nat) VDeleter.record []
  exact ⟨h.2.1, by simpa [VDeleter.record] using h.2.2⟩

/-- Instance of `VDeleter.assign_same_value_twice` at the value 5: the calls
recorded after the two assignments and the destructor are `[5]`. -/
theorem VDeleter.assign_same_value_twice_witness :
    (5 : Nat) ≠ VK_NULL_HANDLE
    ∧ (VDeleter.standalone VDeleter.record).destructor
        ((VDeleter.standalone VDeleter.record).assign 5
          ((VDeleter.standalone VDeleter.record).assign 5 (VDeleter.fresh [])))
        = (VK_NULL_HANDLE, [5]) :=
  ⟨by decide, (VDeleter.assign_same_value_twice 5 (by decide)).2.2⟩

/-- Claim C7: on a handle whose stored value is `VK_NULL_HANDLE`, `cleanup` and
the destructor change nothing: the release action is not applied and the
value stays null. On any handle a second `cleanup` changes nothing after the
first, so two in a row apply the release action at most once: they record no
call for a null value and the one call `[obj]` for a value `obj`. -/
theorem VDeleter.cleanup_of_null_handle :
    (∀ (W : Type) (deletef : Nat → W → W) (w : W),
        (VDeleter.standalone deletef).cleanup (VK_NULL_HANDLE, w) = (VK_NULL_HANDLE, w)
        ∧ (VDeleter.standalone deletef).destructor (VK_NULL_HANDLE, w) = (VK_NULL_HANDLE, w))
    ∧ (∀ (W : Type) (deletef : Nat → W → W) (s : Nat × W),
        (VDeleter.standalone deletef).object ((VDeleter.standalone deletef).cleanup s)
            = VK_NULL_HANDLE
        ∧ (VDeleter.standalone deletef).cleanup ((VDeleter.standalone deletef).cleanup s)
            = (VDeleter.standalone deletef).cleanup s)
    ∧ (∀ (obj : Nat) (calls : List Nat),
        (VDeleter.standalone VDeleter.record).cleanup
            ((VDeleter.standalone VDeleter.record).cleanup (obj, calls))
          = (VK_NULL_HANDLE, calls ++ (if obj = VK_NULL_HANDLE then [] else [obj]))) := by
  refine ⟨?_, ?_, ?_⟩
  · intro W deletef w
    simp [VDeleter.destructor, VDeleter.cleanup, VDeleter.standalone, VDeleter.ofDeletef]
  · intro W deletef s
    simp [VDeleter.cleanup, VDeleter.standalone, VDeleter.ofDeletef]
  · intro obj calls
    by_cases h : obj = VK_NULL_HANDLE
    · simp [VDeleter.cleanup, VDeleter.standalone, VDeleter.ofDeletef, h]
    · simp [VDeleter.cleanup, VDeleter.standalone, VDeleter.ofDeletef, VDeleter.record, h]

/-! ## The application object: theorems -/

/-- Claim C8: from every state of the four handles, the destructor of the
application makes exactly these calls, in this order: the device release, the
surface release, the callback release, the instance release, each only if its
handle is not null. The surface and callback releases come before the instance
release and are passed the value `s.instanceObject` that the instance handle
held on entry; the instance handle still holds that value when the surface
destructor and when the callback destructor start, and is null at the end. -/
theorem HelloTriangleApplication.destructor_releases_children_first (s : AppState) :
    (HelloTriangleApplication.destructor s).trace
        = s.trace
          ++ (if s.deviceObject ≠ VK_NULL_HANDLE
                then [Event.vkDestroyDevice s.deviceObject] else [])
          ++ (if s.surfaceObject ≠ VK_NULL_HANDLE
                then [Event.vkDestroySurfaceKHR s.instanceObject s.surfaceObject] else [])
          ++ (if s.callbackObject ≠ VK_NULL_HANDLE
                then [Event.DestroyDebugReportCallbackEXT s.instanceObject s.callbackObject]
                else [])
          ++ (if s.instanceObject ≠ VK_NULL_HANDLE
                then [Event.vkDestroyInstance s.instanceObject] else [])
    ∧ instance_.object (device.destructor s) = s.instanceObject
    ∧ instance_.object (surface.destructor (device.destructor s)) = s.instanceObject
    ∧ instance_.object (callback.destructor (surface.destructor (device.destructor s)))
        = s.instanceObject
    ∧ instance_.object (HelloTriangleApplication.destructor s) = VK_NULL_HANDLE := by
  obtain ⟨i, c, f, d, t⟩ := s
  by_cases hd : d = VK_NULL_HANDLE <;> by_cases hf : f = VK_NULL_HANDLE <;>
    by_cases hc : c = VK_NULL_HANDLE <;> by_cases hi : i = VK_NULL_HANDLE <;>
    simp [HelloTriangleApplication.destructor, VDeleter.destructor, VDeleter.cleanup,
      instance_, callback, surface, device, VDeleter.ofDeletef, VDeleter.ofInstance,
      AppState.emit, hd, hf, hc, hi]

/-- Claim C10 fails on the code: whenever `vkCreateDevice` succeeds,
`createLogicalDevice` requests `queueCount = 1` for the family and then
fetches the queue with `queueIndex = 1` of that family, an index that is not
below the count. -/
theorem HelloTriangleApplication.createLogicalDevice_queue_index
    (physicalDevice : VkPhysicalDevice) (created : Nat) (s : AppState) :
    (createLogicalDevice physicalDevice created true s).2 = none
    ∧ (createLogicalDevice physicalDevice created true s).1.trace
        = (device.replace s).trace
          ++ [Event.vkCreateDevice physicalDevice.handle
                ((findQueueFamilies physicalDevice).graphicsFamily % 4294967296).toNat 1,
              Event.vkGetDeviceQueue created
                ((findQueueFamilies physicalDevice).graphicsFamily % 4294967296).toNat 1] := by
  simp [createLogicalDevice, AppState.emit, device, VDeleter.ofDeletef]
